import Mathlib

/-!
Verification development for the blog-writer outlining pipeline
(`src/outliner.py`).  The Python source is shallowly embedded: pure string
manipulation becomes Lean functions on `String` / `List String`, the stateful
conversation history becomes explicit state passing, and the fallible paths
(Python exceptions) become `Except` results.  The language-model backend, the
tiktoken tokenizer and the langchain text splitter are external dependencies
whose code is not part of the repository; the backend is abstracted as a
function parameter, and the tokenizer and splitter are modelled from the
specification (see the doc comments of `bpeEncode` and `chunkUnits`).
-/

/-- Python exception kinds raised (or, per the specification, expected) by the
pipeline.  `inputValidation` represents the InputValidation error class of the
specification error taxonomy; the other three are the Python built-in
exceptions appearing in `src/outliner.py`. -/
inductive PyError where
  | typeError (msg : String)
  | valueError (msg : String)
  | fileNotFoundError (msg : String)
  | inputValidation (msg : String)
deriving DecidableEq

/-- State of a `ChatOllama` instance (src/outliner.py lines 11-14): the
conversation history list.  The `Ollama` backend handle created in `__init__`
is modelled as an explicit `backend` function parameter of
`generate_response`; `model_name` and `temperature` only parametrise that
handle and are omitted. -/
structure ChatOllama where
  conversation_history : List String

/-- The fixed sentinel failure string returned by
`ChatOllama.generate_response` when the backend raises (src line 35). -/
def sentinelFailure : String := "Sorry, I couldn\x27t generate a response."

/-- `ChatOllama.add_to_history` (src lines 16-18): appends a message to the
conversation history. -/
def ChatOllama.add_to_history (self : ChatOllama) (message : String) : ChatOllama :=
  { conversation_history := self.conversation_history ++ [message] }

/-- `ChatOllama.format_prompt` (src lines 20-22): joins the conversation
history with single spaces. -/
def ChatOllama.format_prompt (self : ChatOllama) : String :=
  String.intercalate " " self.conversation_history

/-- `ChatOllama.generate_response` (src lines 24-35).  The user turn is
appended to the history, the flattened prompt is sent to the backend; on
success the reply is appended as a bot turn and returned, and on a backend
exception (the `except` branch) the sentinel failure string is returned.
Note that the `except` branch of the source appends nothing to the history.
The backend call `self.ollama._generate([prompt])` is modelled by the
`backend` parameter; a Python exception is an `Except.error`. -/
def ChatOllama.generate_response (backend : String → Except String String)
    (self : ChatOllama) (user_input : String) : ChatOllama × String :=
  match backend ((self.add_to_history ("User: " ++ user_input)).format_prompt) with
  | Except.ok generated_text =>
      ((self.add_to_history ("User: " ++ user_input)).add_to_history
          ("Bot: " ++ generated_text),
        generated_text)
  | Except.error _ =>
      (self.add_to_history ("User: " ++ user_input), sentinelFailure)

/-- Claim C1: for every backend that raises an exception during the completion
call, `generate_response` returns the fixed sentinel failure string
"Sorry, I couldn't generate a response." and does not propagate any exception
to the caller (the function is total and returns normally). -/
theorem generate_response_backend_error_returns_sentinel
    (backend : String → Except String String) (self : ChatOllama)
    (user_input : String) (e : String)
    (h : backend ((self.add_to_history ("User: " ++ user_input)).format_prompt)
        = Except.error e) :
    (ChatOllama.generate_response backend self user_input).2 = sentinelFailure := by
  simp only [ChatOllama.generate_response, h]

/-- Witness for C1 at a concrete failing backend and input. -/
theorem generate_response_backend_error_returns_sentinel_witness :
    (ChatOllama.generate_response (fun _ => Except.error "timeout")
        { conversation_history := [] } "hi").2 = sentinelFailure :=
  generate_response_backend_error_returns_sentinel
    (fun _ => Except.error "timeout") { conversation_history := [] } "hi" "timeout" rfl

/-- Counterexample to claim C2: with a backend that raises, the resulting
conversation history holds only the user turn; the sentinel failure reply is
not appended as a bot turn (the `except` branch of src lines 33-35 performs no
`add_to_history`). -/
theorem generate_response_error_history_counterexample :
    (ChatOllama.generate_response (fun _ => Except.error "boom")
          { conversation_history := [] } "hello").1.conversation_history
        = ["User: hello"] ∧
      ("Bot: " ++ sentinelFailure) ∉
        (ChatOllama.generate_response (fun _ => Except.error "boom")
          { conversation_history := [] } "hello").1.conversation_history ∧
      sentinelFailure ∉
        (ChatOllama.generate_response (fun _ => Except.error "boom")
          { conversation_history := [] } "hello").1.conversation_history := by
  decide

/-- Claim C2 as amended: for every backend that raises an exception during the
completion call, after `generate_response` returns, the conversation history
is the previous history extended with only the user turn; the sentinel
failure reply is returned to the caller but not recorded in the history. -/
theorem generate_response_error_history_user_turn_only
    (backend : String → Except String String) (self : ChatOllama)
    (user_input : String) (e : String)
    (h : backend ((self.add_to_history ("User: " ++ user_input)).format_prompt)
        = Except.error e) :
    (ChatOllama.generate_response backend self user_input).1.conversation_history
      = self.conversation_history ++ ["User: " ++ user_input] := by
  simp only [ChatOllama.generate_response, h]
  rfl

/-- Witness for the amended C2 at a concrete failing backend and input. -/
theorem generate_response_error_history_user_turn_only_witness :
    (ChatOllama.generate_response (fun _ => Except.error "refused")
        { conversation_history := ["User: a", "Bot: b"] } "next").1.conversation_history
      = ["User: a", "Bot: b"] ++ ["User: next"] :=
  generate_response_error_history_user_turn_only
    (fun _ => Except.error "refused") { conversation_history := ["User: a", "Bot: b"] }
    "next" "refused" rfl

/-- Modelled from the spec: the tokenizer behind
`Outliner.num_tokens_from_string` (src lines 63-69) is tiktoken's
`cl100k_base` encoding, an external dependency whose code is not in the
repository.  Per the specification a byte-pair-encoding-style tokenizer is
acceptable and the exact tokenizer choice is pluggable.  `bpeMerges` is a
fixed merge table of adjacent character pairs. -/
def bpeMerges : List (Char × Char) :=
  [('t', 'h'), ('i', 'n'), ('e', 'r'), ('a', 'n')]

/-- Modelled from the spec: greedy byte-pair-style encoding of a character
list.  Adjacent pairs in the merge table become one token; every other
character is its own token. -/
def bpeEncodeAux : List Char → List String
  | [] => []
  | [c] => [String.mk [c]]
  | c1 :: c2 :: cs =>
    if (c1, c2) ∈ bpeMerges then String.mk [c1, c2] :: bpeEncodeAux cs
    else String.mk [c1] :: bpeEncodeAux (c2 :: cs)

/-- Modelled from the spec: the token sequence of a string under the
byte-pair-style tokenizer. -/
def bpeEncode (s : String) : List String := bpeEncodeAux s.data

/-- `Outliner.num_tokens_from_string` (src lines 63-69): the number of tokens
of a string, i.e. the length of its encoding. -/
def num_tokens_from_string (s : String) : Nat := (bpeEncode s).length

/-- Claim C9: the token counter returns a non-negative integer for every
input string, is deterministic (two calls on the same string return the same
value), and returns 0 for the empty string. -/
theorem num_tokens_from_string_spec (s t : String) (h : t = s) :
    0 ≤ num_tokens_from_string s ∧
      num_tokens_from_string t = num_tokens_from_string s ∧
      num_tokens_from_string "" = 0 :=
  ⟨Nat.zero_le _, by rw [h], rfl⟩

/-- Witness for C9 at a concrete string. -/
theorem num_tokens_from_string_spec_witness :
    0 ≤ num_tokens_from_string "hello" ∧
      num_tokens_from_string "hello" = num_tokens_from_string "hello" ∧
      num_tokens_from_string "" = 0 :=
  num_tokens_from_string_spec "hello" "hello" rfl

/-- The last `n` elements of a list. -/
def takeLast (n : Nat) (l : List α) : List α := l.drop (l.length - n)

/-- Modelled from the spec: splitting a transcript into structural units at
blank lines (the paragraph separator "\n\n").  The langchain
`MarkdownTextSplitter` used by `Outliner.transcript_splitter` (src lines
71-78) is an external dependency whose code is not in the repository; per the
specification the text is parsed into structural units (paragraphs under
markdown-like conventions) and the boundary unit choice is an implementation
decision to be documented — here: paragraphs. -/
def splitParasAux : List Char → List Char → List String
  | [], acc => [String.mk acc.reverse]
  | '\n' :: '\n' :: cs, acc => String.mk acc.reverse :: splitParasAux cs []
  | c :: cs, acc => splitParasAux cs (c :: acc)

/-- Modelled from the spec: the non-empty structural units (paragraphs) of a
transcript. -/
def paragraphs (s : String) : List String :=
  (splitParasAux s.data []).filter (fun p => p ≠ "")

/-- Modelled from the spec: the chunk accumulation loop of the Chunker.  The
chunks are carried as token sequences (`List String` of tokens); `cur` is the
chunk under construction.  Units are accumulated greedily while the running
token count stays within `max_tokens`; when the next unit would exceed the
budget the current chunk is closed and the next chunk is seeded with the
trailing `overlap_tokens` tokens of the closed chunk (trimmed further in the
corner case where even the seed plus the unit would exceed the budget, so
that no non-oversized chunk ever exceeds `max_tokens`).  A single unit whose
own token count exceeds `max_tokens` is emitted as its own oversized chunk,
with no overlap seeding across it. -/
def chunkUnits (max_tokens overlap_tokens : Nat) :
    List (List String) → List String → List (List String)
  | [], cur => if cur.isEmpty then [] else [cur]
  | u :: us, cur =>
    if max_tokens < u.length then
      if cur.isEmpty then u :: chunkUnits max_tokens overlap_tokens us []
      else cur :: u :: chunkUnits max_tokens overlap_tokens us []
    else if cur.isEmpty then chunkUnits max_tokens overlap_tokens us u
    else if cur.length + u.length ≤ max_tokens then
      chunkUnits max_tokens overlap_tokens us (cur ++ u)
    else if (takeLast overlap_tokens cur).length + u.length ≤ max_tokens then
      cur :: chunkUnits max_tokens overlap_tokens us (takeLast overlap_tokens cur ++ u)
    else
      cur :: chunkUnits max_tokens overlap_tokens us
        (takeLast (max_tokens - u.length) (takeLast overlap_tokens cur) ++ u)

/-- `Outliner.transcript_splitter` (src lines 71-78), with the langchain
`MarkdownTextSplitter` modelled from the spec by `paragraphs`/`chunkUnits`:
the ordered chunk sequence of a raw transcript, each chunk as its token
sequence.  The source defaults are `chunk_size = 3000`,
`chunk_overlap = 200`. -/
def transcript_splitter (raw_transcript : String)
    (chunk_size chunk_overlap : Nat) : List (List String) :=
  chunkUnits chunk_size chunk_overlap ((paragraphs raw_transcript).map bpeEncode) []

/-- The page content of a chunk: its tokens joined back into text. -/
def chunkText (c : List String) : String := String.join c

/-- Claim C8: chunking is deterministic — two runs of the chunker on the same
input text and the same `max_tokens` / `overlap_tokens` parameters produce
identical chunk sequences. -/
theorem transcript_splitter_deterministic (t1 t2 : String)
    (chunk_size chunk_overlap : Nat) (h : t1 = t2) :
    transcript_splitter t1 chunk_size chunk_overlap
      = transcript_splitter t2 chunk_size chunk_overlap := by
  rw [h]

/-- Witness for C8 on a concrete transcript and configuration. -/
theorem transcript_splitter_deterministic_witness :
    transcript_splitter "abcde\n\nvwxyz" 8 2 = transcript_splitter "abcde\n\nvwxyz" 8 2 :=
  transcript_splitter_deterministic "abcde\n\nvwxyz" "abcde\n\nvwxyz" 8 2 rfl

/-- Length of `takeLast` in terms of the original length. -/
theorem takeLast_length (n : Nat) (l : List α) :
    (takeLast n l).length = l.length - (l.length - n) := by
  simp [takeLast]

/-- Size invariant of the chunk accumulation loop: starting from a chunk under
construction that is within budget, every emitted chunk is within budget
except an oversized unit taken verbatim from the unit list. -/
theorem chunkUnits_size (max_tokens overlap_tokens : Nat) :
    ∀ (us : List (List String)) (cur : List String), cur.length ≤ max_tokens →
      ∀ c ∈ chunkUnits max_tokens overlap_tokens us cur,
        c.length ≤ max_tokens ∨ (max_tokens < c.length ∧ c ∈ us) := by
  intro us
  induction us with
  | nil =>
    intro cur hcur c hc
    simp only [chunkUnits] at hc
    by_cases h2 : cur.isEmpty
    · simp [h2] at hc
    · simp [h2] at hc
      exact Or.inl (hc ▸ hcur)
  | cons u us ih =>
    intro cur hcur c hc
    simp only [chunkUnits] at hc
    by_cases h1 : max_tokens < u.length
    · simp only [if_pos h1] at hc
      by_cases h2 : cur.isEmpty
      · simp only [if_pos h2, List.mem_cons] at hc
        rcases hc with rfl | hc'
        · exact Or.inr ⟨h1, List.mem_cons_self _ _⟩
        · exact (ih [] (Nat.zero_le _) c hc').imp_right
            (fun hr => ⟨hr.1, List.mem_cons_of_mem _ hr.2⟩)
      · simp only [if_neg h2, List.mem_cons] at hc
        rcases hc with rfl | rfl | hc'
        · exact Or.inl hcur
        · exact Or.inr ⟨h1, List.mem_cons_self _ _⟩
        · exact (ih [] (Nat.zero_le _) c hc').imp_right
            (fun hr => ⟨hr.1, List.mem_cons_of_mem _ hr.2⟩)
    · simp only [if_neg h1] at hc
      by_cases h2 : cur.isEmpty
      · simp only [if_pos h2] at hc
        exact (ih u (Nat.le_of_not_lt h1) c hc).imp_right
          (fun hr => ⟨hr.1, List.mem_cons_of_mem _ hr.2⟩)
      · simp only [if_neg h2] at hc
        by_cases h3 : cur.length + u.length ≤ max_tokens
        · simp only [if_pos h3] at hc
          have hlen : (cur ++ u).length ≤ max_tokens := by
            simp only [List.length_append]; exact h3
          exact (ih (cur ++ u) hlen c hc).imp_right
            (fun hr => ⟨hr.1, List.mem_cons_of_mem _ hr.2⟩)
        · simp only [if_neg h3] at hc
          by_cases h4 : (takeLast overlap_tokens cur).length + u.length ≤ max_tokens
          · simp only [if_pos h4, List.mem_cons] at hc
            rcases hc with rfl | hc'
            · exact Or.inl hcur
            · have hlen : (takeLast overlap_tokens cur ++ u).length ≤ max_tokens := by
                simp only [List.length_append]; exact h4
              exact (ih _ hlen c hc').imp_right
                (fun hr => ⟨hr.1, List.mem_cons_of_mem _ hr.2⟩)
          · simp only [if_neg h4, List.mem_cons] at hc
            rcases hc with rfl | hc'
            · exact Or.inl hcur
            · have hlen :
                  (takeLast (max_tokens - u.length) (takeLast overlap_tokens cur)
                    ++ u).length ≤ max_tokens := by
                have ht := takeLast_length (max_tokens - u.length)
                  (takeLast overlap_tokens cur)
                have hu : u.length ≤ max_tokens := Nat.le_of_not_lt h1
                simp only [List.length_append, ht]
                omega
              exact (ih _ hlen c hc').imp_right
                (fun hr => ⟨hr.1, List.mem_cons_of_mem _ hr.2⟩)

/-- Claim C5: every chunk emitted by the chunker has a token count not
exceeding the configured maximum, except a chunk consisting of a single
indivisible structural unit whose own token count exceeds the budget (the
chunk is then exactly that unit's token sequence).  A chunk's token count is
the length of its token sequence. -/
theorem transcript_splitter_chunk_size_bound (text : String)
    (chunk_size chunk_overlap : Nat) (c : List String)
    (hc : c ∈ transcript_splitter text chunk_size chunk_overlap) :
    c.length ≤ chunk_size ∨
      (chunk_size < c.length ∧ c ∈ (paragraphs text).map bpeEncode) :=
  chunkUnits_size chunk_size chunk_overlap _ [] (Nat.zero_le _) c hc

/-- Witness for C5 on a concrete transcript and chunk. -/
theorem transcript_splitter_chunk_size_bound_witness :
    (["a", "b", "c", "d", "e"] : List String).length ≤ 8 ∨
      (8 < (["a", "b", "c", "d", "e"] : List String).length ∧
        ["a", "b", "c", "d", "e"] ∈ (paragraphs "abcde\n\nvwxyz").map bpeEncode) :=
  transcript_splitter_chunk_size_bound "abcde\n\nvwxyz" 8 2
    ["a", "b", "c", "d", "e"] (by decide)

/-- A nonempty character list has a nonempty token encoding. -/
theorem bpeEncodeAux_ne_nil : ∀ (l : List Char), l ≠ [] → bpeEncodeAux l ≠ [] := by
  intro l hl
  match l with
  | [] => exact absurd rfl hl
  | [c] => simp [bpeEncodeAux]
  | c1 :: c2 :: cs =>
    simp only [bpeEncodeAux]
    split <;> simp

/-- A nonempty string has a nonempty token encoding. -/
theorem bpeEncode_ne_nil (p : String) (hp : p ≠ "") : bpeEncode p ≠ [] := by
  apply bpeEncodeAux_ne_nil
  intro hd
  apply hp
  cases p with
  | mk l =>
    simp only [String.data] at hd
    rw [hd]

/-- The first chunk produced by the loop extends the chunk under
construction, provided every pending unit fits in the budget alongside a
full overlap region. -/
theorem chunkUnits_head_prefix (max_tokens overlap_tokens : Nat) :
    ∀ (us : List (List String)) (cur : List String),
      (∀ u ∈ us, u.length + overlap_tokens ≤ max_tokens) →
      cur ≠ [] → cur.length ≤ max_tokens →
      ∃ c rest, chunkUnits max_tokens overlap_tokens us cur = c :: rest ∧ cur <+: c := by
  intro us
  induction us with
  | nil =>
    intro cur _ hne _
    have h2 : cur.isEmpty = false := by
      cases cur with
      | nil => exact absurd rfl hne
      | cons a l => rfl
    refine ⟨cur, [], ?_, List.prefix_refl _⟩
    simp [chunkUnits, h2]
  | cons u us ih =>
    intro cur hus hne hcur
    have hu := hus u (List.mem_cons_self _ _)
    have h1 : ¬ max_tokens < u.length := by omega
    have h2 : cur.isEmpty = false := by
      cases cur with
      | nil => exact absurd rfl hne
      | cons a l => rfl
    have htail : ∀ v ∈ us, v.length + overlap_tokens ≤ max_tokens :=
      fun v hv => hus v (List.mem_cons_of_mem _ hv)
    have hseed : (takeLast overlap_tokens cur).length ≤ overlap_tokens := by
      have := takeLast_length overlap_tokens cur
      omega
    simp only [chunkUnits, if_neg h1, h2, Bool.false_eq_true, if_false]
    by_cases h3 : cur.length + u.length ≤ max_tokens
    · rw [if_pos h3]
      have hne' : cur ++ u ≠ [] := by
        intro hcontra
        exact hne (List.append_eq_nil.mp hcontra).1
      have hlen' : (cur ++ u).length ≤ max_tokens := by
        simp only [List.length_append]; exact h3
      rcases ih (cur ++ u) htail hne' hlen' with ⟨c, rest, heq, hpre⟩
      exact ⟨c, rest, heq, (List.prefix_append cur u).trans hpre⟩
    · rw [if_neg h3]
      have h4 : (takeLast overlap_tokens cur).length + u.length ≤ max_tokens := by
        omega
      rw [if_pos h4]
      exact ⟨cur, _, rfl, List.prefix_refl _⟩

/-- Overlap invariant of the chunk accumulation loop: when every unit fits in
the budget alongside a full overlap region (and units are nonempty), each
emitted chunk begins with the trailing `overlap_tokens` tokens of its
predecessor. -/
theorem chunkUnits_chain (max_tokens overlap_tokens : Nat) :
    ∀ (us : List (List String)) (cur : List String),
      (∀ u ∈ us, u.length + overlap_tokens ≤ max_tokens ∧ u ≠ []) →
      cur.length ≤ max_tokens →
      List.Chain' (fun c1 c2 => takeLast overlap_tokens c1 <+: c2)
        (chunkUnits max_tokens overlap_tokens us cur) := by
  intro us
  induction us with
  | nil =>
    intro cur _ _
    simp only [chunkUnits]
    by_cases h2 : cur.isEmpty
    · simp [h2]
    · simp [h2]
  | cons u us ih =>
    intro cur hus hcur
    have hu := hus u (List.mem_cons_self _ _)
    have h1 : ¬ max_tokens < u.length := by omega
    have htail : ∀ v ∈ us, v.length + overlap_tokens ≤ max_tokens ∧ v ≠ [] :=
      fun v hv => hus v (List.mem_cons_of_mem _ hv)
    have htail1 : ∀ v ∈ us, v.length + overlap_tokens ≤ max_tokens :=
      fun v hv => (htail v hv).1
    simp only [chunkUnits, if_neg h1]
    by_cases h2 : cur.isEmpty
    · simp only [h2, if_true]
      exact ih u htail (by omega)
    · have h2' : cur.isEmpty = false := Bool.eq_false_iff.mpr h2
      simp only [h2', Bool.false_eq_true, if_false]
      by_cases h3 : cur.length + u.length ≤ max_tokens
      · rw [if_pos h3]
        exact ih (cur ++ u) htail (by simp only [List.length_append]; omega)
      · rw [if_neg h3]
        have hseed : (takeLast overlap_tokens cur).length ≤ overlap_tokens := by
          have := takeLast_length overlap_tokens cur
          omega
        have h4 : (takeLast overlap_tokens cur).length + u.length ≤ max_tokens := by
          omega
        rw [if_pos h4]
        have hlen' : (takeLast overlap_tokens cur ++ u).length ≤ max_tokens := by
          simp only [List.length_append]; exact h4
        have hne' : takeLast overlap_tokens cur ++ u ≠ [] := by
          intro hcontra
          exact hu.2 (List.append_eq_nil.mp hcontra).2
        rcases chunkUnits_head_prefix max_tokens overlap_tokens us
            (takeLast overlap_tokens cur ++ u) htail1 hne' hlen' with ⟨c, rest, heq, hpre⟩
        rw [List.chain'_cons']
        refine ⟨?_, ih _ htail hlen'⟩
        intro y hy
        rw [heq] at hy
        simp only [List.head?_cons, Option.mem_def, Option.some.injEq] at hy
        subst hy
        exact (List.prefix_append (takeLast overlap_tokens cur) u).trans hpre

/-- Whether no structural unit of a transcript exceeds a token budget. -/
def noOversizedUnit (s : String) (max_tokens : Nat) : Bool :=
  ((paragraphs s).map bpeEncode).all (fun u => u.length ≤ max_tokens)

/-- Counterexample to claim C6: a transcript with two structural units of 9
and 8 tokens, chunked with `max_tokens = 10` and `overlap_tokens = 4`,
produces two adjacent chunks whose shared region holds only the trailing 2
tokens of the first chunk — not the configured 4 — although no structural
unit is oversized.  An exact overlap of 4 tokens is impossible here: the
second chunk would then hold 4 + 8 = 12 > 10 tokens, violating the chunk
size budget. -/
theorem transcript_splitter_overlap_counterexample :
    transcript_splitter "abcdefghj\n\nklmopqrs" 10 4 =
        [["a", "b", "c", "d", "e", "f", "g", "h", "j"],
         ["h", "j", "k", "l", "m", "o", "p", "q", "r", "s"]] ∧
      noOversizedUnit "abcdefghj\n\nklmopqrs" 10 = true ∧
      takeLast 4 ["a", "b", "c", "d", "e", "f", "g", "h", "j"] ≠
        List.take 4 ["h", "j", "k", "l", "m", "o", "p", "q", "r", "s"] := by
  decide

/-- Claim C6 as amended: for every transcript whose structural units each fit
in the budget alongside a full overlap region (token count at most
`chunk_size - chunk_overlap`), every pair of adjacent chunks shares an
overlap region: the trailing `chunk_overlap` tokens of a chunk are the
leading tokens of its successor. -/
theorem transcript_splitter_overlap_invariant (text : String)
    (chunk_size chunk_overlap : Nat)
    (h : ∀ u ∈ (paragraphs text).map bpeEncode,
        u.length + chunk_overlap ≤ chunk_size) :
    List.Chain' (fun c1 c2 => takeLast chunk_overlap c1 <+: c2)
      (transcript_splitter text chunk_size chunk_overlap) := by
  apply chunkUnits_chain
  · intro u hu
    refine ⟨h u hu, ?_⟩
    rcases List.mem_map.mp hu with ⟨p, hp, rfl⟩
    exact bpeEncode_ne_nil p (of_decide_eq_true (List.mem_filter.mp hp).2)
  · exact Nat.zero_le _

/-- Witness for the amended C6 on a concrete two-chunk transcript. -/
theorem transcript_splitter_overlap_invariant_witness :
    List.Chain' (fun c1 c2 => takeLast 2 c1 <+: c2)
      (transcript_splitter "abcde\n\nvwxyz" 8 2) :=
  transcript_splitter_overlap_invariant "abcde\n\nvwxyz" 8 2 (by decide)

/-- Method names defined on class `ChatOllama` in src/outliner.py lines
11-35.  The class defines no `__call__` method. -/
def chatOllamaMethods : List String :=
  ["__init__", "add_to_history", "format_prompt", "generate_response"]

/-- Python call semantics for the expression `self.chat(...)` at src lines
103-105 and 165-167, where `self.chat` is the `ChatOllama` instance created
at line 61: calling an object requires a `__call__` method on its class.  If
one existed the backend would be invoked once on the messages; since
`ChatOllama` defines none, Python raises `TypeError` before the backend is
reached.  The second component counts backend completion calls made. -/
def chatCall (backend : List String → String) (messages : List String) :
    Except PyError String × Nat :=
  if "__call__" ∈ chatOllamaMethods then (Except.ok (backend messages), 1)
  else (Except.error (PyError.typeError "\x27ChatOllama\x27 object is not callable"), 0)

/-- Langchain prompt-template formatting (external dependency): the named
slot in braces is replaced by its value and doubled braces become literal
braces. -/
def formatTemplate (template slot value : String) : String :=
  ((template.replace ("\x7b" ++ slot ++ "\x7d") value).replace
      "\x7b\x7b" "\x7b").replace "\x7d\x7d" "\x7d"

/-- The `system_template` of `Outliner.transcript2insights` (src line 81). -/
def insights_system_template : String :=
  "You are a helpful assistant that summarizes transcripts of podcasts or lectures."

/-- The `human_template` of `Outliner.transcript2insights` (src lines 85-97);
the Python backslash line continuations are resolved, keeping the source
indentation. -/
def insights_human_template : String :=
  "From this chunk of a presentation transcript, extract a short list of key insights.             Skip explaining what you\x27re doing, labeling the insights and writing conclusion paragraphs.             The insights have to be phrased as statements of facts with no references to the presentation or the transcript.             Statements have to be full sentences and in terms of words and phrases as close as possible to those used in the transcript.             Keep as much detail as possible. The transcript of the presentation is delimited in triple backticks.\n\n            Desired output format:\n            - [Key insight #1]\n            - [Key insight #2]\n            - [...]\n\n            Transcript:\n            ```{transcript}```"

/-- The `system_template` of `Outliner.create_blueprint` (src line 121). -/
def blueprint_system_template : String :=
  "You are a helpful AI blogger who writes essays on technical topics."

/-- The `human_template` of `Outliner.create_blueprint` (src lines 126-159),
with literal braces of the JSON example doubled as in the source. -/
def blueprint_human_template : String :=
  "Organize the provided key insights into a structured JSON outline for a blog post. Follow these steps:\n\n        1. Identify and number each key insight.\n        2. Cluster similar insights into groups, with each group containing 3-5 insights related to a specific topic.\n        3. Combine these topics into higher-level themes, each consisting of 3-5 related topics.\n        4. Structure these themes in a logical order, with the most overarching theme at the top as the thesis statement of the blog post.\n        5. Within each theme, list the topics as supporting arguments, and under each topic, list the corresponding insights as pieces of evidence.\n        6. Ensure all insights are kept as full sentences with their original wording and retain technical details.\n        7. Label each layer appropriately as \x27Thesis Statement\x27, \x27Supporting Arguments\x27, and \x27Evidence\x27.\n\n        The output should be in JSON format, focusing solely on organizing the information hierarchically without additional explanations:\n\n            Desired output format:\n            \x7b\x7b\n            \"Thesis Statement\": \"...\",\n            \"Supporting Arguments\": [\n                \x7b\x7b\n                \"Argument\": \"...\",\n                \"Evidence\": [\n                    \"...\", \"...\", \"...\", ...\n                ]\n                \x7d\x7d,\n                \x7b\x7b\n                \"Argument\": \"...\",\n                \"Evidence\": [\n                    \"...\", \"...\", \"...\", ...\n                ]\n                \x7d\x7d,\n                ...\n            ]\n            \x7d\x7d\n\n            Statements:\n            ```{statements}```"

/-- `Outliner.transcript2insights` (src lines 80-107): builds the two-message
extraction prompt (system plus templated human message) and evaluates
`self.chat(...)` on it.  The second component counts backend completion
calls. -/
def transcript2insights (backend : List String → String) (transcript : String) :
    Except PyError String × Nat :=
  chatCall backend
    [insights_system_template,
      formatTemplate insights_human_template "transcript" transcript]

/-- Loop of `Outliner.create_essay_insights` (src lines 110-118): `response`
starts as the empty string and each chunk contributes through
`"\n".join([response, insights])`; a Python exception from
`transcript2insights` propagates. -/
def create_essay_insightsLoop (backend : List String → String) :
    List String → String → Nat → Except PyError String × Nat
  | [], response, calls => (Except.ok response, calls)
  | text :: rest, response, calls =>
    match transcript2insights backend text with
    | (Except.ok insights, n) =>
        create_essay_insightsLoop backend rest (response ++ "\n" ++ insights) (calls + n)
    | (Except.error e, n) => (Except.error e, calls + n)

/-- `Outliner.create_essay_insights` (src lines 109-118) over the chunk page
contents, counting backend completion calls. -/
def create_essay_insights (backend : List String → String)
    (transcript_chunks : List String) : Except PyError String × Nat :=
  create_essay_insightsLoop backend transcript_chunks "" 0

/-- Aggregation logic of `Outliner.create_essay_insights` (src lines
110-118) in the spec scenario where the backend is stubbed so that the
per-chunk extraction returns normally: `response` starts as the empty string
and each chunk appends its insight text through a single `"\n".join`. -/
def create_essay_insightsWith (extract : String → String)
    (transcript_chunks : List String) : String :=
  transcript_chunks.foldl (fun response text => response ++ "\n" ++ extract text) ""

/-- `Outliner.create_blueprint` (src lines 120-171): builds the two-message
synthesis prompt and evaluates `self.chat(...)` on it. -/
def create_blueprint (backend : List String → String) (statements : String) :
    Except PyError String × Nat :=
  chatCall backend
    [blueprint_system_template,
      formatTemplate blueprint_human_template "statements" statements]

/-- `Outliner.full_transcript2outline_json` (src lines 174-189): chunk the
transcript with the default configuration (3000, 200), extract insights per
chunk, then synthesize the blueprint.  The second component counts backend
completion calls. -/
def full_transcript2outline_json (backend : List String → String)
    (raw_transcript : String) : Except PyError String × Nat :=
  match create_essay_insights backend
      ((transcript_splitter raw_transcript 3000 200).map chunkText) with
  | (Except.ok essay_insights, n) =>
    (match create_blueprint backend essay_insights with
      | (blueprint, m) => (blueprint, n + m))
  | (Except.error e, n) => (Except.error e, n)

/-- Whether a pipeline result is an InputValidation failure. -/
def isInputValidation : Except PyError String → Bool
  | Except.error (PyError.inputValidation _) => true
  | _ => false

/-- Claim C7 evaluated at its failing input: for every backend and every
chunk text, `transcript2insights` raises `TypeError` with zero backend
completion calls, because `Outliner.__init__` stores a `ChatOllama` in
`self.chat` (src line 61) and line 103 calls `self.chat(...)` although
`ChatOllama` defines no `__call__` method; the `extract(chunk) -> string`
contract never holds. -/
theorem transcript2insights_type_error (backend : List String → String)
    (transcript : String) :
    transcript2insights backend transcript
      = (Except.error (PyError.typeError "\x27ChatOllama\x27 object is not callable"), 0) :=
  rfl

/-- Counterexample to claim C3: on the empty transcript the pipeline raises
`TypeError` (not an InputValidation error) and that only at the synthesis
stage; no input validation happens.  Zero backend completion calls do occur,
but not because of a fail-fast validation. -/
theorem empty_transcript_no_input_validation_counterexample :
    full_transcript2outline_json (fun _ => "stub output") ""
        = (Except.error (PyError.typeError "\x27ChatOllama\x27 object is not callable"), 0) ∧
      isInputValidation (full_transcript2outline_json (fun _ => "stub output") "").1
        = false :=
  ⟨rfl, rfl⟩

/-- Claim C3 as amended: for the empty transcript the pipeline performs no
input validation; the chunk sequence is empty, so the extraction loop makes
zero backend completion calls, and the run then fails at the synthesis stage
with a `TypeError` (the `ChatOllama` instance is not callable) rather than a
descriptive InputValidation error. -/
theorem empty_transcript_pipeline_type_error (backend : List String → String) :
    full_transcript2outline_json backend ""
      = (Except.error (PyError.typeError "\x27ChatOllama\x27 object is not callable"), 0) :=
  rfl

/-- Counterexample to claim C4: with exactly two chunks and a stubbed
extraction returning the fixed bullet text for every call, the aggregation
of `create_essay_insights` yields a leading "\n" and a single-newline
separator between the per-chunk blocks — not the claimed blank-line
separated string without a leading separator. -/
theorem create_essay_insights_two_chunk_counterexample :
    create_essay_insightsWith (fun _ => "- fact A\n- fact B")
          ["chunk one", "chunk two"]
        = "\n- fact A\n- fact B\n- fact A\n- fact B" ∧
      create_essay_insightsWith (fun _ => "- fact A\n- fact B")
          ["chunk one", "chunk two"]
        ≠ "- fact A\n- fact B\n\n- fact A\n- fact B" := by
  decide

/-- Claim C4 as amended: for a chunk sequence of exactly two chunks and any
stubbed per-chunk extraction, the aggregation returns a leading "\n"
followed by the two per-chunk results joined by a single "\n" (per-chunk
results in chunk order, single-newline separated, with a leading
separator). -/
theorem create_essay_insights_two_chunk_format (extract : String → String)
    (c1 c2 : String) :
    create_essay_insightsWith extract [c1, c2]
      = "\n" ++ extract c1 ++ "\n" ++ extract c2 := by
  simp [create_essay_insightsWith, String.append_assoc]

/-- Python `str.endswith` (used at src line 43), modelled on the character
list. -/
def endswith (s suffix : String) : Bool := List.isSuffixOf suffix.data s.data

/-- Python truthiness of the `input_filename` parameter (src line 48):
`None` and the empty string are falsy. -/
def truthyFilename : Option String → Bool
  | none => false
  | some s => s != ""

/-- `Outliner.__init__` (src lines 38-59): the Transcripts folder listing is
filtered to the `.txt` files; with none present a `ValueError` is raised;
with a truthy `input_filename` that is not among them a `FileNotFoundError`
is raised, and one that is among them is read; otherwise the first listed
`.txt` file is read.  The filesystem is modelled by the folder listing (in
`os.listdir` order) and a `read_file` content map; no backend interaction is
involved. -/
def outliner_init (folder_listing : List String) (read_file : String → String)
    (input_filename : Option String) : Except PyError String :=
  let transcript_files := folder_listing.filter (fun f => endswith f ".txt")
  if transcript_files.isEmpty then
    Except.error (PyError.valueError "No transcript files found in the folder.")
  else if truthyFilename input_filename then
    if input_filename.getD "" ∈ transcript_files then
      Except.ok (read_file (input_filename.getD ""))
    else
      Except.error (PyError.fileNotFoundError
        ("The specified file " ++ input_filename.getD ""
          ++ " does not exist in the Transcripts folder."))
  else Except.ok (read_file (transcript_files.headD ""))

/-- Claim C10: constructing an `Outliner` raises `ValueError` when the
Transcripts folder holds no `.txt` file; raises `FileNotFoundError` when a
specified (non-empty) `input_filename` is not among the folder's `.txt`
files; and otherwise loads the transcript from the specified file, or from
the first listed `.txt` file when none is specified, with no backend
interaction. -/
theorem outliner_init_spec (folder : List String) (read_file : String → String) :
    (∀ fn, folder.filter (fun f => endswith f ".txt") = [] →
        outliner_init folder read_file fn
          = Except.error (PyError.valueError "No transcript files found in the folder.")) ∧
      (∀ name, name ≠ "" → name ∉ folder.filter (fun f => endswith f ".txt") →
        folder.filter (fun f => endswith f ".txt") ≠ [] →
        outliner_init folder read_file (some name)
          = Except.error (PyError.fileNotFoundError
              ("The specified file " ++ name
                ++ " does not exist in the Transcripts folder."))) ∧
      (∀ name, name ≠ "" → name ∈ folder.filter (fun f => endswith f ".txt") →
        outliner_init folder read_file (some name) = Except.ok (read_file name)) ∧
      (folder.filter (fun f => endswith f ".txt") ≠ [] →
        outliner_init folder read_file none
          = Except.ok (read_file
              ((folder.filter (fun f => endswith f ".txt")).headD ""))) := by
  refine ⟨?_, ?_, ?_, ?_⟩
  · intro fn h
    simp [outliner_init, h]
  · intro name h1 h2 h3
    have he : (folder.filter (fun f => endswith f ".txt")).isEmpty = false := by
      simpa [List.isEmpty_iff] using h3
    simp [outliner_init, he, truthyFilename, h1, h2]
  · intro name h1 h2
    have h3 : folder.filter (fun f => endswith f ".txt") ≠ [] :=
      List.ne_nil_of_mem h2
    have he : (folder.filter (fun f => endswith f ".txt")).isEmpty = false := by
      simpa [List.isEmpty_iff] using h3
    simp [outliner_init, he, truthyFilename, h1, h2]
  · intro h3
    have he : (folder.filter (fun f => endswith f ".txt")).isEmpty = false := by
      simpa [List.isEmpty_iff] using h3
    simp [outliner_init, he, truthyFilename]

/-- Witness for C10: the four behaviors at concrete folder listings and
filenames. -/
theorem outliner_init_spec_witness :
    outliner_init ["notes.md"] (fun _ => "T") none
        = Except.error (PyError.valueError "No transcript files found in the folder.") ∧
      outliner_init ["a.txt"] (fun _ => "T") (some "b.txt")
        = Except.error (PyError.fileNotFoundError
            "The specified file b.txt does not exist in the Transcripts folder.") ∧
      outliner_init ["a.txt"] (fun _ => "T") (some "a.txt") = Except.ok "T" ∧
      outliner_init ["a.txt", "b.txt"] (fun _ => "T") none = Except.ok "T" := by
  refine ⟨?_, ?_, ?_, ?_⟩
  · exact (outliner_init_spec ["notes.md"] (fun _ => "T")).1 none (by decide)
  · exact (outliner_init_spec ["a.txt"] (fun _ => "T")).2.1 "b.txt"
      (by decide) (by decide) (by decide)
  · exact (outliner_init_spec ["a.txt"] (fun _ => "T")).2.2.1 "a.txt"
      (by decide) (by decide)
  · exact (outliner_init_spec ["a.txt", "b.txt"] (fun _ => "T")).2.2.2 (by decide)
